import Mathlib

/-!
Shallow embedding of the `ai-chatbot` utility layer:
`src/lib/security.ts`, `src/lib/cors.ts`, `src/lib/ssr-utils.ts`, and the
`calculateBackoffDelay` / CSP utilities quoted in the repository's
documentation file.

JS strings are modelled as Lean `String` (a list of characters; the
UTF-16 length of a JS string coincides with the character count on the
basic multilingual plane, which is the regime the validation logic and
all claims live in).  JS numbers are modelled as `ℚ`.  Code that can
throw is modelled in `Except JsError`.  Ambient browser globals
(`window`, `document`, `window.crypto`, `localStorage`, `DOMPurify`,
`Math.random`) are modelled by an explicit environment record `JsEnv`;
a server environment is one with `hasWindow = false`.
-/

/-- ASCII lower-casing of a string's characters, as performed by the `i`
flag of the regexes in `validateInput` (all the patterns involved are
ASCII). -/
def lowerData (s : String) : List Char := s.data.map Char.toLower

/-- `containsSeq pat s` is the boolean substring test: does `pat` occur
contiguously inside `s`?  (Models JS `RegExp.test` for a literal
pattern.) -/
def containsSeq (pat : List Char) : List Char → Bool
  | [] => pat.isEmpty
  | c :: rest => pat.isPrefixOf (c :: rest) || containsSeq pat rest

/-- A JS "word character" `\w`, i.e. `[A-Za-z0-9_]`. -/
def isWordChar (c : Char) : Bool := c.isAlphanum || c == '_'

/-- A JS whitespace character `\s` (ASCII part: space, tab, LF, VT, FF, CR). -/
def isSpaceChar (c : Char) : Bool :=
  c == ' ' || c == '\t' || c == '\n' || c == '\r' || c == Char.ofNat 11 || c == Char.ofNat 12

/-- Match `\s*=` at the head of the list. -/
def matchEqAfterSpaces : List Char → Bool
  | [] => false
  | c :: rest => if c == '=' then true else if isSpaceChar c then matchEqAfterSpaces rest else false

/-- Match `\w*\s*=` at the head of the list.  Since word characters,
space characters and `=` are pairwise disjoint, the greedy scan below is
exactly the regex semantics. -/
def matchWordsThenEq : List Char → Bool
  | [] => false
  | c :: rest => if isWordChar c then matchWordsThenEq rest else matchEqAfterSpaces (c :: rest)

/-- Match `on\w+\s*=` at the head of the (already lower-cased) list. -/
def matchOnHere : List Char → Bool
  | 'o' :: 'n' :: c :: rest => isWordChar c && matchWordsThenEq rest
  | _ => false

/-- Search `on\w+\s*=` anywhere in the list. -/
def searchOn : List Char → Bool
  | [] => false
  | c :: rest => matchOnHere (c :: rest) || searchOn rest

/-- The regex test `/<script/i` from `validateInput`. -/
def testScriptTag (s : String) : Bool := containsSeq "<script".data (lowerData s)

/-- The regex test `/javascript:/i` from `validateInput`. -/
def testJavascriptUrl (s : String) : Bool := containsSeq "javascript:".data (lowerData s)

/-- The regex test `/on\w+\s*=/i` from `validateInput`. -/
def testOnHandler (s : String) : Bool := searchOn (lowerData s)

/-- The regex test `/data:text\/html/i` from `validateInput`. -/
def testDataHtmlUrl (s : String) : Bool := containsSeq "data:text/html".data (lowerData s)

/-- `validateInput` from `src/lib/security.ts`.  `!input` is true for the
empty string (the only falsy string); the `typeof input !== 'string'`
disjunct is vacuous under the `string` type and is dropped. -/
def validateInput (input : String) (maxLength : Nat) : Bool :=
  if input.data.isEmpty then false
  else if input.data.length > maxLength then false
  else !(testScriptTag input || testJavascriptUrl input || testOnHandler input
        || testDataHtmlUrl input)

-- A quick sanity check of the embedding on concrete inputs.
example : validateInput "hello" 1000 = true := by decide
example : validateInput "a<SCRipt>" 1000 = false := by decide
example : validateInput "x onclick = 1" 1000 = false := by decide
example : validateInput "once upon a time" 1000 = true := by decide
example : validateInput "JAVASCRIPT:x" 1000 = false := by decide

/-- A JS value as returned by the web-storage methods: `getItem` produces
a string or `null`; `setItem`, `removeItem` and `clear` produce
`undefined`. -/
inductive JsValue where
  | null : JsValue
  | undefined : JsValue
  | str : String → JsValue
deriving DecidableEq

/-- A runtime error thrown by JS code; the only kind the utilities can
raise is a `ReferenceError` for an absent global (its name recorded). -/
inductive JsError where
  | referenceError : String → JsError
deriving DecidableEq

/-- The call signature shared by real web storage and the no-op objects
built in `ssr-utils.ts`. -/
structure StorageShim where
  getItem : String → JsValue
  setItem : String → String → JsValue
  removeItem : String → JsValue
  clearStore : Unit → JsValue

/-- The object literal `{ getItem: () => null, setItem: () => {},
removeItem: () => {}, clear: () => {} }` returned on the server by
`safeLocalStorage` / `safeSessionStorage`. -/
def noopStorage : StorageShim :=
  { getItem := fun _ => JsValue.null
    setItem := fun _ _ => JsValue.undefined
    removeItem := fun _ => JsValue.undefined
    clearStore := fun _ => JsValue.undefined }

/-- The ambient JS environment: presence of the browser globals
(`window`, `document`, web storage — all present or absent together),
the byte stream behind `window.crypto.getRandomValues`, the external
`DOMPurify.sanitize` function, the `Math.random()` stream, and the
browser storage objects. -/
structure JsEnv where
  hasWindow : Bool
  cryptoBytes : Option (Nat → Nat)
  domPurifySanitize : String → String
  mathRandom : Nat → ℚ
  localStorageObj : StorageShim
  sessionStorageObj : StorageShim

/-- `sanitizeHtml` from `src/lib/security.ts`: server side it returns its
input as-is, client side it delegates to `DOMPurify.sanitize`. -/
def sanitizeHtml (env : JsEnv) (html : String) : Except JsError String :=
  if env.hasWindow = false then Except.ok html
  else Except.ok (env.domPurifySanitize html)

/-- Text-node escaping as performed by assigning `textContent` and
reading back `innerHTML` on a detached `div` (the serialization escapes
`&`, `<`, `>` and U+00A0). -/
def escapeCharHtml (c : Char) : List Char :=
  if c == '&' then "&amp;".data
  else if c == '<' then "&lt;".data
  else if c == '>' then "&gt;".data
  else if c == Char.ofNat 160 then "&nbsp;".data
  else [c]

/-- `escapeHtml` from `src/lib/security.ts`.  It calls
`document.createElement` unconditionally, so in an environment without
the browser globals the bare `document` access throws a
`ReferenceError`. -/
def escapeHtml (env : JsEnv) (text : String) : Except JsError String :=
  if env.hasWindow then Except.ok (String.mk (text.data.flatMap escapeCharHtml))
  else Except.error (JsError.referenceError "document")

/-- One hex digit, lower case (`Nat.toString 16` style). -/
def hexDigitChar (n : Nat) : Char :=
  if n < 10 then Char.ofNat (48 + n) else Char.ofNat (87 + n)

/-- `byte.toString(16).padStart(2, '0')` for a byte value. -/
def byteToHexPadded (b : Nat) : List Char :=
  [hexDigitChar (b / 16 % 16), hexDigitChar (b % 16)]

/-- One base-36 digit character (`0-9a-z`). -/
def base36DigitChar (d : Nat) : Char :=
  if d < 10 then Char.ofNat (48 + d) else Char.ofNat (97 + (d - 10))

/-- The first `n` base-36 fraction digits of a rational in `[0, 1)`
(models the digits of `x.toString(36)` after the `0.`; the float
rounding and trailing-zero trimming of JS are abstracted away). -/
def base36FracDigits : ℚ → Nat → List Nat
  | _, 0 => []
  | q, n + 1 => (q * 36).floor.toNat % 36 :: base36FracDigits (q * 36 - (q * 36).floor) n

/-- `Math.random().toString(36).substring(2, 15)`: up to 13 base-36
fraction digits of a random sample. -/
def randomBase36Tail (q : ℚ) : List Char := (base36FracDigits q 13).map base36DigitChar

/-- `generateSecureToken` from `src/lib/security.ts`: with `window` and
`window.crypto` present, 32 random bytes rendered as padded hex;
otherwise the `Math.random` base-36 fallback. -/
def generateSecureToken (env : JsEnv) : Except JsError String :=
  match env.hasWindow, env.cryptoBytes with
  | true, some f =>
      Except.ok (String.mk (((List.range 32).map (fun i => f i % 256)).flatMap byteToHexPadded))
  | _, _ =>
      Except.ok (String.mk (randomBase36Tail (env.mathRandom 0)
        ++ randomBase36Tail (env.mathRandom 1)))

/-- The `origin` field of `CorsOptions` in `src/lib/cors.ts`:
absent, boolean, single string, or array of strings. -/
inductive OriginOpt where
  | undef : OriginOpt
  | boolean : Bool → OriginOpt
  | str : String → OriginOpt
  | strs : List String → OriginOpt
deriving DecidableEq

/-- `CorsOptions` from `src/lib/cors.ts` (all fields optional). -/
structure CorsOptions where
  origin : OriginOpt
  methods : Option (List String)
  allowedHeaders : Option (List String)
  credentials : Option Bool

/-- The `{}` default argument of `getCorsHeaders`. -/
def emptyCorsOptions : CorsOptions := ⟨OriginOpt.undef, none, none, none⟩

/-- The JS expression `origin[0] || '*'`: the first element when it
exists and is truthy (non-empty), else `'*'`. -/
def jsIndexZeroOrStar : List String → String
  | [] => "*"
  | s :: _ => if s == "" then "*" else s

/-- `Array.prototype.join(', ')`. -/
def joinCommaSpace (l : List String) : String := String.intercalate ", " l

/-- `getCorsHeaders` from `src/lib/cors.ts`, producing the header map as
an association list in insertion order. -/
def getCorsHeaders (options : CorsOptions) : List (String × String) :=
  (match options.origin with
    | OriginOpt.boolean true => [("Access-Control-Allow-Origin", "*")]
    | OriginOpt.str s => [("Access-Control-Allow-Origin", s)]
    | OriginOpt.strs l => [("Access-Control-Allow-Origin", jsIndexZeroOrStar l)]
    | _ => [])
  ++ [("Access-Control-Allow-Methods",
        match options.methods with
        | some ms => joinCommaSpace ms
        | none => "GET, POST, PUT, DELETE, OPTIONS")]
  ++ [("Access-Control-Allow-Headers",
        match options.allowedHeaders with
        | some hs => joinCommaSpace hs
        | none => "Content-Type, Authorization, X-Requested-With")]
  ++ (match options.credentials with
      | some true => [("Access-Control-Allow-Credentials", "true")]
      | _ => [])

/-- `isValidOrigin` from `src/lib/cors.ts`: `!origin` rejects the empty
string, then membership of the origin or of `'*'` in the allow-list. -/
def isValidOrigin (origin : String) (allowedOrigins : List String) : Bool :=
  if origin == "" then false
  else allowedOrigins.contains origin || allowedOrigins.contains "*"

/-- `getDefaultCorsOptions` from `src/lib/cors.ts`; the
`process.env.NODE_ENV === 'development'` probe is passed in as a flag. -/
def getDefaultCorsOptions (isDevelopment : Bool) : CorsOptions :=
  { origin := if isDevelopment then OriginOpt.boolean true
      else OriginOpt.strs ["http://localhost:3000", "https://your-domain.com"]
    methods := some ["GET", "POST", "PUT", "DELETE", "OPTIONS"]
    allowedHeaders := some ["Content-Type", "Authorization", "X-Requested-With"]
    credentials := some true }

/-- `isServer` from `src/lib/ssr-utils.ts`. -/
def isServer (env : JsEnv) : Bool := !env.hasWindow

/-- `isClient` from `src/lib/ssr-utils.ts`. -/
def isClient (env : JsEnv) : Bool := env.hasWindow

/-- `safeLocalStorage` from `src/lib/ssr-utils.ts`: the no-op object on
the server, the browser's `localStorage` on the client. -/
def safeLocalStorage (env : JsEnv) : Except JsError StorageShim :=
  if isServer env then Except.ok noopStorage else Except.ok env.localStorageObj

/-- `safeSessionStorage` from `src/lib/ssr-utils.ts`. -/
def safeSessionStorage (env : JsEnv) : Except JsError StorageShim :=
  if isServer env then Except.ok noopStorage else Except.ok env.sessionStorageObj

/-- One call made against a storage object. -/
inductive StorageOp where
  | get : String → StorageOp
  | set : String → String → StorageOp
  | remove : String → StorageOp
  | clearAll : StorageOp

/-- Dispatch one call to a storage shim. -/
def callShim (st : StorageShim) : StorageOp → JsValue
  | StorageOp.get k => st.getItem k
  | StorageOp.set k v => st.setItem k v
  | StorageOp.remove k => st.removeItem k
  | StorageOp.clearAll => st.clearStore ()

/-- Run a whole sequence of calls against a storage shim, collecting the
returned values. -/
def runShim (st : StorageShim) (ops : List StorageOp) : List JsValue :=
  ops.map (callShim st)

/-- `calculateBackoffDelay` from the repository's connection-management
documentation: `Math.min(baseDelay * 2 ** attempt, 30000) +
Math.random() * 1000`, with the `Math.random()` sample passed in. -/
def calculateBackoffDelay (attempt : Nat) (baseDelay : ℚ) (random : ℚ) : ℚ :=
  min (baseDelay * 2 ^ attempt) 30000 + random * 1000

/-- The `script-src` source expression chosen by `getCSPHeader`'s
template: `nonce ? `'nonce-${nonce}'` : "'unsafe-inline'"`, where an
absent or empty nonce is falsy. -/
def scriptSrcValue (nonce : Option String) : String :=
  match nonce with
  | some n => if n == "" then "'unsafe-inline'" else "'nonce-" ++ n ++ "'"
  | none => "'unsafe-inline'"

/-- The directive list built by `getCSPHeader`. -/
def cspDirectives (nonce : Option String) : List String :=
  ["default-src 'self'",
   "script-src 'self' 'unsafe-eval' " ++ scriptSrcValue nonce,
   "style-src 'self' 'unsafe-inline'",
   "img-src 'self' data: blob:",
   "font-src 'self'",
   "connect-src 'self' ws: wss:",
   "frame-ancestors 'none'",
   "base-uri 'self'",
   "form-action 'self'"]

/-- `getCSPHeader` from the CSP utilities. -/
def getCSPHeader (nonce : Option String) : String :=
  String.intercalate "; " (cspDirectives nonce)

/-- `generateNonce` from the CSP utilities (same `Math.random` base-36
shape as the `generateSecureToken` fallback). -/
def generateNonce (env : JsEnv) : String :=
  String.mk (randomBase36Tail (env.mathRandom 0) ++ randomBase36Tail (env.mathRandom 1))

/-- Boolean substring test on strings. -/
def containsSubstr (pat s : String) : Bool := containsSeq pat.data s.data

/-- A concrete server environment: no browser globals. -/
def serverEnv : JsEnv :=
  { hasWindow := false
    cryptoBytes := none
    domPurifySanitize := fun s => s
    mathRandom := fun _ => 0
    localStorageObj := noopStorage
    sessionStorageObj := noopStorage }

/-- A concrete client (browser) environment. -/
def clientEnv : JsEnv :=
  { hasWindow := true
    cryptoBytes := some (fun _ => 0)
    domPurifySanitize := fun s => s
    mathRandom := fun _ => 0
    localStorageObj := noopStorage
    sessionStorageObj := noopStorage }

/-! ## Helper lemmas -/

/-- `List.isPrefixOf` agrees with the existence of a completing tail. -/
theorem isPrefixOf_eq_true_iff :
    ∀ (p s : List Char), p.isPrefixOf s = true ↔ ∃ t, s = p ++ t
  | [], s => by simp [List.isPrefixOf]
  | a :: p, [] => by simp [List.isPrefixOf]
  | a :: p, b :: s => by
    simp only [List.isPrefixOf, Bool.and_eq_true, beq_iff_eq, List.cons_append,
      List.cons.injEq, isPrefixOf_eq_true_iff p s]
    constructor
    · rintro ⟨rfl, t, rfl⟩
      exact ⟨t, rfl, rfl⟩
    · rintro ⟨t, rfl, rfl⟩
      exact ⟨rfl, t, rfl⟩

/-- The substring scan succeeds on any explicit decomposition. -/
theorem containsSeq_of_parts (pat : List Char) :
    ∀ (l : List Char) (s : List Char) (r : List Char), s = l ++ pat ++ r →
      containsSeq pat s = true
  | [], s, r, h => by
    subst h
    simp only [List.nil_append]
    cases hp : pat ++ r with
    | nil =>
      have hpat : pat = [] := (List.append_eq_nil.mp hp).1
      simp [containsSeq, hpat]
    | cons c rest =>
      have hpre : pat.isPrefixOf (c :: rest) = true :=
        (isPrefixOf_eq_true_iff pat (c :: rest)).mpr ⟨r, by rw [← hp]⟩
      simp [containsSeq, hpre]
  | c :: l, s, r, h => by
    subst h
    have ih := containsSeq_of_parts pat l (l ++ pat ++ r) r rfl
    have ih2 : containsSeq pat (l ++ (pat ++ r)) = true := by
      simpa [List.append_assoc] using ih
    simp [containsSeq, ih2]

/-! ## C1 -/

/-- C1: `validateInput` returns `false` whenever the input contains the
substring `<script` in any letter case, whenever the input's length
exceeds `maxLength`, and on the empty string. -/
theorem validateInput_rejections (input : String) (maxLength : Nat) :
    ((∃ l r, lowerData input = l ++ "<script".data ++ r) →
        validateInput input maxLength = false) ∧
    (input.data.length > maxLength → validateInput input maxLength = false) ∧
    validateInput "" maxLength = false := by
  refine ⟨?_, ?_, ?_⟩
  · rintro ⟨l, r, h⟩
    have ht : testScriptTag input = true := containsSeq_of_parts _ l _ r h
    simp [validateInput, ht]
  · intro h
    unfold validateInput
    by_cases hE : input.data.isEmpty = true
    · simp [hE]
    · rw [if_neg hE, if_pos h]
  · rfl

/-- C1 witness. -/
theorem validateInput_rejections_witness :
    validateInput "a<ScRiPt>b" 1000 = false ∧ validateInput "abc" 2 = false ∧
    validateInput "" 7 = false :=
  ⟨(validateInput_rejections "a<ScRiPt>b" 1000).1 ⟨"a".data, ">b".data, by decide⟩,
   (validateInput_rejections "abc" 2).2.1 (by decide),
   (validateInput_rejections "" 7).2.2⟩

/-! ## C2 -/

/-- C2 counterexample: at attempt 5, base delay 1000 ms and random
sample 1/2 (a value in `[0, 1)`), the computed delay is 30500 ms — the
30000 ms cap is applied before the jitter is added, so the result is not
bounded by 30000. -/
theorem calculateBackoffDelay_exceeds_cap :
    0 ≤ (1 : ℚ) / 2 ∧ (1 : ℚ) / 2 < 1 ∧
    ¬ calculateBackoffDelay 5 1000 (1 / 2) ≤ 30000 := by
  refine ⟨by norm_num, by norm_num, ?_⟩
  unfold calculateBackoffDelay
  rw [min_def]
  norm_num

/-- C2 (amended): for every attempt, base delay, and jitter sample in
`[0, 1)`, the delay is strictly below 31000 ms (the cap applies to the
exponential term; the jitter adds strictly less than 1000 ms on top). -/
theorem calculateBackoffDelay_lt_31000 (attempt : Nat) (baseDelay random : ℚ)
    (_h0 : 0 ≤ random) (h1 : random < 1) :
    calculateBackoffDelay attempt baseDelay random < 31000 := by
  unfold calculateBackoffDelay
  have hmin : min (baseDelay * 2 ^ attempt) 30000 ≤ (30000 : ℚ) := min_le_right _ _
  linarith

/-- C2 witness. -/
theorem calculateBackoffDelay_lt_31000_witness :
    calculateBackoffDelay 5 1000 (1 / 2) < 31000 :=
  calculateBackoffDelay_lt_31000 5 1000 (1 / 2) (by norm_num) (by norm_num)

/-! ## C3 -/

/-- C3 counterexample: with `origin = [""]` (an array of strings whose
first element is the empty string), `getCorsHeaders` binds the origin
header to `'*'`, not to the first element `""`: the code uses the JS
expression `origin[0] || '*'`, and the empty string is falsy. -/
theorem getCorsHeaders_arrayOrigin_cex :
    (getCorsHeaders ⟨OriginOpt.strs [""], none, none, none⟩).lookup
        "Access-Control-Allow-Origin" = some "*" ∧ ("*" : String) ≠ "" := by
  refine ⟨rfl, by decide⟩

/-- C3 (amended): an array origin binds the origin header to the first
element of the array when the array is non-empty and that element is a
non-empty string; an empty array, or an empty first element, yields
`'*'`. -/
theorem getCorsHeaders_arrayOrigin (options : CorsOptions) (l : List String)
    (h : options.origin = OriginOpt.strs l) :
    (∀ s t, l = s :: t → s ≠ "" →
        (getCorsHeaders options).lookup "Access-Control-Allow-Origin" = some s) ∧
    ((l = [] ∨ (∃ t, l = "" :: t)) →
        (getCorsHeaders options).lookup "Access-Control-Allow-Origin" = some "*") := by
  obtain ⟨o, m, ah, cr⟩ := options
  cases h
  constructor
  · rintro s t rfl hs
    have hlook : (getCorsHeaders ⟨OriginOpt.strs (s :: t), m, ah, cr⟩).lookup
        "Access-Control-Allow-Origin" = some (jsIndexZeroOrStar (s :: t)) := rfl
    rw [hlook]
    simp [jsIndexZeroOrStar, hs]
  · rintro (rfl | ⟨t, rfl⟩)
    · rfl
    · rfl

/-- C3 witness. -/
theorem getCorsHeaders_arrayOrigin_witness :
    (getCorsHeaders ⟨OriginOpt.strs ["https://a.example"], none, none, none⟩).lookup
        "Access-Control-Allow-Origin" = some "https://a.example" :=
  (getCorsHeaders_arrayOrigin ⟨OriginOpt.strs ["https://a.example"], none, none, none⟩
      ["https://a.example"] rfl).1 "https://a.example" [] rfl (by decide)

/-! ## C4 -/

/-- Whether an `Except` computation finished without raising. -/
def isOkE {ε α : Type} : Except ε α → Bool
  | Except.ok _ => true
  | Except.error _ => false

/-- C4 counterexample: in a server environment (no browser globals),
`escapeHtml` does not return a value — its unconditional access to
`document` raises a `ReferenceError`. -/
theorem escapeHtml_throws_on_server :
    escapeHtml serverEnv "hello" = Except.error (JsError.referenceError "document") := rfl

/-- C4 (amended): `sanitizeHtml` and `generateSecureToken` return a
value without raising in every environment, `validateInput` is a total
boolean function, and `escapeHtml` returns a value without raising in
every client environment — but not in server environments. -/
theorem utilities_no_throw (env : JsEnv) (s : String) (maxLength : Nat) :
    isOkE (sanitizeHtml env s) = true ∧ isOkE (generateSecureToken env) = true ∧
    (env.hasWindow = true → isOkE (escapeHtml env s) = true) ∧
    (validateInput s maxLength = true ∨ validateInput s maxLength = false) := by
  refine ⟨?_, ?_, ?_, ?_⟩
  · cases h : env.hasWindow <;> simp [sanitizeHtml, h, isOkE]
  · cases h : env.hasWindow <;> cases hc : env.cryptoBytes <;>
      simp [generateSecureToken, h, hc, isOkE]
  · intro h
    simp [escapeHtml, h, isOkE]
  · cases hb : validateInput s maxLength
    · exact Or.inr rfl
    · exact Or.inl rfl

/-- C4 witness. -/
theorem utilities_no_throw_witness :
    isOkE (sanitizeHtml clientEnv "x") = true ∧ isOkE (escapeHtml clientEnv "x") = true :=
  ⟨(utilities_no_throw clientEnv "x" 3).1, (utilities_no_throw clientEnv "x" 3).2.2.1 rfl⟩

/-! ## C5 -/

/-- C5: `getCorsHeaders` binds the origin header to `'*'` for a boolean
`true` origin and to the given string for a string origin, and emits the
credentials header whenever `credentials` is `true`. -/
theorem getCorsHeaders_origin_credentials (options : CorsOptions) :
    (options.origin = OriginOpt.boolean true →
        (getCorsHeaders options).lookup "Access-Control-Allow-Origin" = some "*") ∧
    (∀ s, options.origin = OriginOpt.str s →
        (getCorsHeaders options).lookup "Access-Control-Allow-Origin" = some s) ∧
    (options.credentials = some true →
        ((getCorsHeaders options).lookup "Access-Control-Allow-Credentials").isSome
          = true) := by
  obtain ⟨o, m, ah, cr⟩ := options
  refine ⟨?_, ?_, ?_⟩
  · rintro rfl
    rfl
  · rintro s rfl
    rfl
  · rintro rfl
    rcases o with _ | b | s | l
    · rfl
    · cases b <;> rfl
    · rfl
    · rfl

/-- C5 witness. -/
theorem getCorsHeaders_origin_credentials_witness :
    (getCorsHeaders ⟨OriginOpt.boolean true, none, none, some true⟩).lookup
        "Access-Control-Allow-Origin" = some "*" ∧
    (getCorsHeaders ⟨OriginOpt.str "https://a.example", none, none, none⟩).lookup
        "Access-Control-Allow-Origin" = some "https://a.example" ∧
    ((getCorsHeaders ⟨OriginOpt.undef, none, none, some true⟩).lookup
        "Access-Control-Allow-Credentials").isSome = true :=
  ⟨(getCorsHeaders_origin_credentials ⟨OriginOpt.boolean true, none, none, some true⟩).1 rfl,
   (getCorsHeaders_origin_credentials ⟨OriginOpt.str "https://a.example", none, none,
      none⟩).2.1 "https://a.example" rfl,
   (getCorsHeaders_origin_credentials ⟨OriginOpt.undef, none, none, some true⟩).2.2 rfl⟩

/-! ## C6 -/

/-- C6: whenever no browser-like environment is present (`window`
undefined), `sanitizeHtml` returns its argument unchanged. -/
theorem sanitizeHtml_server_identity (env : JsEnv) (html : String)
    (h : env.hasWindow = false) : sanitizeHtml env html = Except.ok html := by
  simp [sanitizeHtml, h]

/-- C6 witness. -/
theorem sanitizeHtml_server_identity_witness :
    sanitizeHtml serverEnv "<script>alert(1)</script>" =
      Except.ok "<script>alert(1)</script>" :=
  sanitizeHtml_server_identity serverEnv "<script>alert(1)</script>" rfl

/-! ## C7 -/

/-- C7: outside a browser context both storage accessors return (without
raising) the no-op object, which provides all four methods; running any
sequence of calls against it, every `getItem` returns `null` and the
other three return `undefined` and have no effect (the object holds no
state at all). -/
theorem safeStorage_server_noop (env : JsEnv) (h : env.hasWindow = false) :
    safeLocalStorage env = Except.ok noopStorage ∧
    safeSessionStorage env = Except.ok noopStorage ∧
    (∀ ops : List StorageOp, runShim noopStorage ops =
        ops.map (fun op => match op with
          | StorageOp.get _ => JsValue.null
          | _ => JsValue.undefined)) := by
  refine ⟨?_, ?_, ?_⟩
  · simp [safeLocalStorage, isServer, h]
  · simp [safeSessionStorage, isServer, h]
  · intro ops
    induction ops with
    | nil => rfl
    | cons op rest ih =>
      cases op <;> simp [runShim, callShim, noopStorage] <;>
        simpa [runShim] using ih

/-- C7 witness. -/
theorem safeStorage_server_noop_witness :
    safeLocalStorage serverEnv = Except.ok noopStorage ∧
    runShim noopStorage [StorageOp.get "k", StorageOp.set "a" "b", StorageOp.clearAll] =
      [JsValue.null, JsValue.undefined, JsValue.undefined] :=
  ⟨(safeStorage_server_noop serverEnv rfl).1,
   (safeStorage_server_noop serverEnv rfl).2.2
      [StorageOp.get "k", StorageOp.set "a" "b", StorageOp.clearAll]⟩

/-! ## C8 -/

/-- The fixed tail of the CSP header after the `script-src` source
expression. -/
def cspTail : String :=
  "; style-src 'self' 'unsafe-inline'; img-src 'self' data: blob:; font-src 'self'; connect-src 'self' ws: wss:; frame-ancestors 'none'; base-uri 'self'; form-action 'self'"

set_option maxRecDepth 4000 in
/-- Shape of the full CSP header around the nonce-dependent source
expression. -/
theorem getCSPHeader_data (nonce : Option String) :
    (getCSPHeader nonce).data =
      "default-src 'self'; script-src 'self' 'unsafe-eval' ".data
        ++ ((scriptSrcValue nonce).data ++ cspTail.data) := by
  simp [getCSPHeader, cspDirectives, cspTail, String.intercalate, String.intercalate.go,
    String.data_append]

/-- C8 counterexample: for the supplied nonce `""` (which is falsy in the
template's `nonce ? … : …` test), `getCSPHeader` produces exactly the
no-nonce header, so the `script-src` directive does not differ from the
no-nonce case. -/
theorem getCSPHeader_emptyNonce_cex : getCSPHeader (some "") = getCSPHeader none := rfl

/-- A nonce source expression never coincides with `'unsafe-inline'`
inside the `script-src` directive. -/
theorem nonceDirective_ne (n : String) :
    "script-src 'self' 'unsafe-eval' " ++ ("'nonce-" ++ n ++ "'") ≠
      "script-src 'self' 'unsafe-eval' " ++ "'unsafe-inline'" := by
  intro h
  have hd := congrArg String.data h
  simp only [String.data_append] at hd
  have hd2 : "'nonce-".data ++ (n.data ++ "'".data) = "'unsafe-inline'".data := by
    have h3 := List.append_cancel_left hd
    simp only [List.append_assoc] at h3
    exact h3
  have hp : List.isPrefixOf "'nonce-".data "'unsafe-inline'".data = true :=
    (isPrefixOf_eq_true_iff _ _).mpr ⟨n.data ++ "'".data, hd2.symm⟩
  exact absurd hp (by decide)

/-- C8 (amended): the header always contains `default-src 'self'`, and
when a non-empty nonce is supplied the `script-src` directive carries
`'nonce-<nonce>'` in place of `'unsafe-inline'` and so differs from the
no-nonce directive.  (A supplied empty nonce is falsy and leaves the
header unchanged.) -/
theorem getCSPHeader_directives (nonce : Option String) :
    containsSubstr "default-src 'self'" (getCSPHeader nonce) = true ∧
    (∀ n, nonce = some n → n ≠ "" →
        (cspDirectives nonce)[1]? =
          some ("script-src 'self' 'unsafe-eval' " ++ ("'nonce-" ++ n ++ "'")) ∧
        (cspDirectives nonce)[1]? ≠ (cspDirectives none)[1]?) := by
  constructor
  · unfold containsSubstr
    apply containsSeq_of_parts _ [] _
      ("; script-src 'self' 'unsafe-eval' ".data ++ ((scriptSrcValue nonce).data
        ++ cspTail.data))
    rw [getCSPHeader_data]
    simp
  · rintro n rfl hn
    have hval : scriptSrcValue (some n) = "'nonce-" ++ n ++ "'" := by
      simp [scriptSrcValue, hn]
    constructor
    · simp [cspDirectives, hval]
    · simp only [cspDirectives, List.getElem?_cons_succ, List.getElem?_cons_zero,
        hval, ne_eq, Option.some.injEq]
      exact nonceDirective_ne n

/-- C8 witness. -/
theorem getCSPHeader_directives_witness :
    containsSubstr "default-src 'self'" (getCSPHeader (some "abc123")) = true ∧
    (cspDirectives (some "abc123"))[1]? =
      some ("script-src 'self' 'unsafe-eval' " ++ ("'nonce-" ++ "abc123" ++ "'")) :=
  ⟨(getCSPHeader_directives (some "abc123")).1,
   ((getCSPHeader_directives (some "abc123")).2 "abc123" rfl (by decide)).1⟩

/-! ## C9 -/

/-- C9: `isValidOrigin` returns `true` exactly when the origin is
non-empty and the allow-list contains that origin or the wildcard
`'*'`. -/
theorem isValidOrigin_iff (origin : String) (allowedOrigins : List String) :
    isValidOrigin origin allowedOrigins = true ↔
      origin ≠ "" ∧ (origin ∈ allowedOrigins ∨ "*" ∈ allowedOrigins) := by
  rcases eq_or_ne origin "" with rfl | h
  · simp [isValidOrigin]
  · simp [isValidOrigin, h]

/-! ## C10 -/

/-- C10: for every options value the header map contains the methods and
allowed-headers keys (defaults are substituted when absent), while for
the empty/default options the origin and credentials keys are absent. -/
theorem getCorsHeaders_required_keys :
    (∀ options : CorsOptions,
        ((getCorsHeaders options).lookup "Access-Control-Allow-Methods").isSome = true ∧
        ((getCorsHeaders options).lookup "Access-Control-Allow-Headers").isSome = true) ∧
    (getCorsHeaders emptyCorsOptions).lookup "Access-Control-Allow-Origin" = none ∧
    (getCorsHeaders emptyCorsOptions).lookup "Access-Control-Allow-Credentials" = none := by
  refine ⟨?_, rfl, rfl⟩
  intro options
  obtain ⟨o, m, ah, cr⟩ := options
  rcases o with _ | b | s | l
  · exact ⟨rfl, rfl⟩
  · cases b
    · exact ⟨rfl, rfl⟩
    · exact ⟨rfl, rfl⟩
  · exact ⟨rfl, rfl⟩
  · exact ⟨rfl, rfl⟩
